import Mathlib

/-!
Verification of the pcap test-data generator (`data_gen.py`) and the mock
upload endpoint (`data_rx.py`).

The generator is embedded shallowly: the clock samples taken by
`time.time()` / `time.localtime()` become explicit parameters, filesystem
success/failure of each I/O call becomes an explicit `Bool`, and the
interactive dispatch loop of `main` becomes a pure step function on a state
holding the ledger text and the set of written fixture files.
-/

namespace PcapGen

/-! ### Decimal rendering of naturals (models Python `str(int)` / `f"{n}"`) -/

/-- The ASCII digit character for `n % 10`. -/
def digitChar (n : Nat) : Char := Char.ofNat (48 + n % 10)

/-- Fuel-driven accumulation of the decimal digits of `n`, most significant
first.  `fuel` only bounds the recursion depth; any `fuel > number of digits`
gives the true decimal representation. -/
def natToStrAux : Nat → Nat → List Char
  | 0, _ => []
  | fuel + 1, n =>
    if n < 10 then [digitChar n]
    else natToStrAux fuel (n / 10) ++ [digitChar (n % 10)]

/-- Decimal representation of a natural number, as Python's `str` renders a
nonnegative `int` (no sign, no padding, `"0"` for zero). -/
def natToStr (n : Nat) : String := ⟨natToStrAux (n + 1) n⟩

/-! ### The fixed payload and its digest -/

/-- `FILE_CONTENT = b"test file content for pcap"` from `data_gen.py`
(ASCII, so modelled as the corresponding string). -/
def FILE_CONTENT : String := "test file content for pcap"

/-- `FILE_HASH = hashlib.sha256(FILE_CONTENT).hexdigest()` from
`data_gen.py`: the SHA-256 hex digest of the fixed payload, computed once at
process start.  `hashlib` is external library code; the constant below is the
value it returns for `FILE_CONTENT`. -/
def FILE_HASH : String := "550ad5715ce5981e229efb02cb26f730b5e5d6595c0724403de2d6a965d60c44"

/-! ### Broken-down local time and `strftime` formatting -/

/-- A broken-down time as returned by `time.localtime()` (the fields the
generator formats with `strftime('%Y%m%d-%H%M%S', ·)`). -/
structure Tm where
  year : Nat
  mon : Nat
  mday : Nat
  hour : Nat
  min : Nat
  sec : Nat

/-- Zero-pad the decimal representation of `n` on the left to width `w`,
as C `strftime` pads `%Y` (width 4) and `%m %d %H %M %S` (width 2). -/
def padNum (w n : Nat) : String :=
  ⟨List.replicate (w - (natToStr n).length) '0' ++ (natToStr n).data⟩

/-- `time.strftime('%Y%m%d-%H%M%S', t)`. -/
def fmtTime (t : Tm) : String :=
  padNum 4 t.year ++ padNum 2 t.mon ++ padNum 2 t.mday ++ "-" ++
    padNum 2 t.hour ++ padNum 2 t.min ++ padNum 2 t.sec

/-- `f"MAH11-{time.strftime('%Y%m%d-%H%M%S', current_time)}.pcap"`. -/
def fixtureFilename (t : Tm) : String := "MAH11-" ++ fmtTime t ++ ".pcap"

/-- POSIX `Path` join `d / f` rendered as a string (the configured
directories are `resolve()`d absolute paths without a trailing slash). -/
def joinPath (d f : String) : String := d ++ "/" ++ f

/-- The UTC instance of the epoch-to-broken-down-time conversion performed by
`time.localtime` (civil-from-days algorithm); used to instantiate the
otherwise abstract timezone conversion on concrete inputs. -/
def tmOfEpochUTC (t : Nat) : Tm :=
  let days := t / 86400
  let rem := t % 86400
  let z := days + 719468
  let era := z / 146097
  let doe := z % 146097
  let yoe := (doe - doe / 1460 + doe / 36524 - doe / 146096) / 365
  let doy := doe - (365 * yoe + yoe / 4 - yoe / 100)
  let mp := (5 * doy + 2) / 153
  let d := doy - (153 * mp + 2) / 5 + 1
  let m := if mp < 10 then mp + 3 else mp - 9
  { year := (yoe + era * 400) + (if m ≤ 2 then 1 else 0)
    mon := m, mday := d
    hour := rem / 3600, min := rem % 3600 / 60, sec := rem % 60 }

/-! ### The record formatters of `data_gen.py` -/

/-- `generate_valid_record` (data_gen.py:122-142).  The two clock reads
`int(time.time())` and `time.localtime()` become the parameters `epoch_time`
and `current_time`; success of the binary file write becomes `writeOk`.
Returns `some (csv_line, file_path)` on success and `none` when the write
fails (the source returns `(None, None)`). -/
def generate_valid_record (srcDir : String) (epoch_time : Nat) (current_time : Tm)
    (writeOk : Bool) : Option (String × String) :=
  let filename := fixtureFilename current_time
  let file_path := joinPath srcDir filename
  if writeOk then
    some (natToStr epoch_time ++ "," ++ file_path ++ "," ++ FILE_HASH ++ "\n", file_path)
  else none

/-- `generate_error_record` (data_gen.py:147-178): a CSV record with a
deliberate formatting error; unknown `error_type` falls back to the
valid-looking shape. -/
def generate_error_record (srcDir : String) (epoch_time : Nat) (current_time : Tm)
    (error_type : String) : String :=
  let valid_path := joinPath srcDir (fixtureFilename current_time)
  if error_type = "missing_field" then
    natToStr epoch_time ++ "\n"
  else if error_type = "empty_path" then
    natToStr epoch_time ++ ",," ++ FILE_HASH ++ "\n"
  else if error_type = "extra_row" then
    natToStr epoch_time ++ "," ++ valid_path ++ "," ++ FILE_HASH ++ "\n" ++ "EXTRA,ROW,DATA" ++ "\n"
  else if error_type = "garbled" then
    "garbled data, not, even close\nto csv format!\n"
  else
    natToStr epoch_time ++ "," ++ valid_path ++ "," ++ FILE_HASH ++ "\n"

/-- `generate_fail_record` (data_gen.py:183-214): a structurally valid CSV
record with an invalid file path.  `tmpOk` models whether `/tmp` is usable
(`Path("/tmp").mkdir(exist_ok=True)` succeeding); on failure the source
falls back to the relative filename, as it does for an unknown `fail_type`. -/
def generate_fail_record (epoch_time : Nat) (current_time : Tm) (tmpOk : Bool)
    (fail_type : String) : String :=
  let filename := fixtureFilename current_time
  let file_path_str :=
    if fail_type = "relative" then filename
    else if fail_type = "outside" then
      (if tmpOk then joinPath "/tmp" filename else filename)
    else filename
  natToStr epoch_time ++ "," ++ file_path_str ++ "," ++ FILE_HASH ++ "\n"

/-! ### Splitting lines into CSV fields, and blocks into lines -/

/-! CSV / line splitting -/

def splitCh (sep : Char) : List Char → List (List Char)
  | [] => [[]]
  | c :: cs =>
    match splitCh sep cs with
    | [] => [[c]]
    | g :: gs => if c = sep then [] :: g :: gs else (c :: g) :: gs

/-- The comma-separated fields of a newline-terminated record line, as a CSV
consumer sees them after stripping the line terminator. -/
def recordFields (line : String) : List String :=
  (splitCh ',' line.data.dropLast).map List.asString

/-- The physical lines of a newline-terminated block. -/
def blockLines (s : String) : List String :=
  ((splitCh '\n' s.data).dropLast).map List.asString

/-! the filename pattern `MAH11-\d{8}-\d{6}\.pcap` -/

/-- The regular-expression check `MAH11-\d{8}-\d{6}\.pcap` on a whole string,
expressed positionally. -/
def MatchesFixturePattern (s : String) : Prop :=
  s.data.length = 26 ∧
  s.data.take 6 = "MAH11-".data ∧
  (∀ c ∈ (s.data.drop 6).take 8, c.isDigit = true) ∧
  (s.data.drop 14).take 1 = ['-'] ∧
  (∀ c ∈ (s.data.drop 15).take 6, c.isDigit = true) ∧
  s.data.drop 21 = ".pcap".data

instance (s : String) : Decidable (MatchesFixturePattern s) := by
  unfold MatchesFixturePattern; infer_instance

/-- Sanity bounds on a broken-down time: every value `time.localtime` can
return satisfies them (calendar years through 9999, two-digit month, day,
hour, minute and second fields). -/
def Tm.WF (t : Tm) : Prop :=
  t.year ≤ 9999 ∧ t.mon ≤ 99 ∧ t.mday ≤ 99 ∧ t.hour ≤ 99 ∧ t.min ≤ 99 ∧ t.sec ≤ 99

instance (t : Tm) : Decidable t.WF := by
  unfold Tm.WF; infer_instance

/-- The `YYYYMMDD-HHMMSS` stamp embedded in a fixture filename
(characters 6 through 20). -/
def embeddedStamp (s : String) : String := ⟨(s.data.drop 6).take 15⟩

/-! `pyLower` is idempotent -/

/-- Python `str.lower()` on the selector character read by `getch()`
(data_gen.py:239).  CPython lowercases ASCII `A`-`Z` to `a`-`z`; no other
character maps onto one of the ASCII selectors, so the identity on the rest
is observationally faithful for dispatch. -/
def pyLower (c : Char) : Char :=
  if 65 ≤ c.toNat ∧ c.toNat ≤ 90 then Char.ofNat (c.toNat + 32) else c

/-! ### The dispatch loop of `main` (data_gen.py:220-289) -/

/-- The environment one loop iteration interacts with: the two clock samples
taken inside the record generators, and the success of each fallible I/O
call (fixture write, `/tmp` mkdir, ledger append, ledger truncate). -/
structure Io where
  t1 : Nat
  ct : Tm
  writeOk : Bool
  tmpOk : Bool
  appendOk : Bool
  truncOk : Bool

/-- The observable filesystem state of the generator: the text of the CSV
ledger and the fixture files written so far (path, content). -/
structure GenState where
  ledger : String
  files : List (String × String)

/-- One iteration of `main`'s `while True` loop (data_gen.py:238-289): read a
selector, lowercase it, run the selected branch (which may create a fixture
file and/or produce `csv_line_to_append`), then perform the single append at
the bottom of the loop if a line was produced and the append succeeds.
`t` truncates (the `continue` skips the append); `q` and unrecognized
selectors leave the state unchanged. -/
def step (srcDir : String) (io : Io) (ch : Char) (s : GenState) : GenState :=
  let c := pyLower ch
  let res : GenState × Option String :=
    if c = ' ' then
      match generate_valid_record srcDir io.t1 io.ct io.writeOk with
      | some (csv_line, file_path) =>
        ({ s with files := s.files ++ [(file_path, FILE_CONTENT)] }, some csv_line)
      | none => (s, none)
    else if c = '1' then (s, some (generate_error_record srcDir io.t1 io.ct "missing_field"))
    else if c = '2' then (s, some (generate_error_record srcDir io.t1 io.ct "empty_path"))
    else if c = '3' then (s, some (generate_error_record srcDir io.t1 io.ct "extra_row"))
    else if c = '4' then (s, some (generate_error_record srcDir io.t1 io.ct "garbled"))
    else if c = 'r' then (s, some (generate_fail_record io.t1 io.ct io.tmpOk "relative"))
    else if c = 'o' then (s, some (generate_fail_record io.t1 io.ct io.tmpOk "outside"))
    else if c = 't' then (if io.truncOk then { s with ledger := "" } else s, none)
    else (s, none)
  match res with
  | (s₁, some csv_line) =>
    if io.appendOk then { s₁ with ledger := s₁.ledger ++ csv_line } else s₁
  | (s₁, none) => s₁

/-- Ledger effect of the single append site at the bottom of the loop. -/
def appendIf (ok : Bool) (s : GenState) (line : String) : GenState :=
  if ok then { s with ledger := s.ledger ++ line } else s



/-- Number of physical lines of the ledger text (every appended block is
newline-terminated, so lines are counted by their terminators). -/
def countNL (s : String) : Nat := s.data.count '\n'

/-- Lowercase hexadecimal digit, as produced by `hexdigest()`. -/
def isLowerHexDigit (c : Char) : Bool := c.isDigit || ('a' ≤ c && c ≤ 'f')

/-- The valid ledger line grammar of spec §6:
`<integer epoch seconds>,<absolute path, no unescaped commas>,<64 lowercase hex>`. -/
def matchesValidGrammar (l : String) : Bool :=
  match splitCh ',' l.data with
  | [a, b, c] =>
    (!a.isEmpty) && a.all Char.isDigit && (b.head? == some '/') &&
      (c.length == 64) && c.all isLowerHexDigit
  | _ => false
end PcapGen

namespace PcapRx

/-! ### The mock upload endpoint of `data_rx.py` -/

/-- An incoming POST request to `/pcap`: the `x-filename` and `Content-Type`
headers (absent headers are `none`) and the raw body bytes. -/
structure UploadRequest where
  xFilename : Option String
  contentType : Option String
  body : List Nat

/-- The response of the `upload` handler: HTTP status, body text, and the
number of seconds the handler sleeps before responding. -/
structure UploadResponse where
  status : Nat
  body : String
  delaySeconds : Nat
  deriving DecidableEq

/-- The `upload` handler (data_rx.py:19-40).  The process-wide
`upload_counter` becomes explicit state: the handler increments it, then
sleeps 6 seconds exactly when the incremented counter is a multiple of 20,
and always returns `("OK", 200)`. -/
def upload (upload_counter : Nat) (_req : UploadRequest) : Nat × UploadResponse :=
  let c := upload_counter + 1
  (c, { status := 200, body := "OK", delaySeconds := if c % 20 = 0 then 6 else 0 })

end PcapRx

namespace PcapGen

theorem splitCh_ne_nil (sep : Char) (l : List Char) : splitCh sep l ≠ [] := by
  cases l with
  | nil => simp [splitCh]
  | cons c cs =>
    simp only [splitCh]
    split
    · simp
    · split <;> simp

theorem splitCh_of_not_mem {sep : Char} {l : List Char} (h : sep ∉ l) :
    splitCh sep l = [l] := by
  induction l with
  | nil => rfl
  | cons c cs ih =>
    have hc : c ≠ sep := fun e => h (e ▸ List.mem_cons_self c cs)
    have hcs : sep ∉ cs := fun m => h (List.mem_cons_of_mem c m)
    simp only [splitCh, ih hcs]
    simp [hc]

theorem splitCh_append {sep : Char} {a : List Char} (b : List Char) (h : sep ∉ a) :
    splitCh sep (a ++ sep :: b) = a :: splitCh sep b := by
  induction a with
  | nil =>
    simp only [List.nil_append, splitCh]
    cases hb : splitCh sep b with
    | nil => exact absurd hb (splitCh_ne_nil sep b)
    | cons g gs => simp
  | cons c cs ih =>
    have hc : c ≠ sep := fun e => h (e ▸ List.mem_cons_self c cs)
    have hcs : sep ∉ cs := fun m => h (List.mem_cons_of_mem c m)
    rw [List.cons_append]
    simp only [splitCh]
    rw [ih hcs]
    simp [hc]

theorem splitCh_three {A B C : List Char} (hA : ',' ∉ A) (hB : ',' ∉ B) (hC : ',' ∉ C) :
    splitCh ',' (A ++ ',' :: (B ++ ',' :: C)) = [A, B, C] := by
  rw [splitCh_append _ hA, splitCh_append _ hB, splitCh_of_not_mem hC]

/-! digit facts -/

theorem digitChar_isDigit (n : Nat) : (digitChar n).isDigit = true := by
  have h : n % 10 < 10 := Nat.mod_lt _ (by norm_num)
  unfold digitChar
  interval_cases h : n % 10 <;> decide

theorem mem_natToStrAux_isDigit {fuel n : Nat} {c : Char}
    (h : c ∈ natToStrAux fuel n) : c.isDigit = true := by
  induction fuel generalizing n with
  | zero => simp [natToStrAux] at h
  | succ fuel ih =>
    unfold natToStrAux at h
    split at h
    · rcases List.mem_singleton.mp h with rfl
      exact digitChar_isDigit _
    · rcases List.mem_append.mp h with h' | h'
      · exact ih h'
      · rcases List.mem_singleton.mp h' with rfl
        exact digitChar_isDigit _

theorem mem_natToStr_isDigit {n : Nat} {c : Char} (h : c ∈ (natToStr n).data) :
    c.isDigit = true := mem_natToStrAux_isDigit h

theorem natToStrAux_length_le {k : Nat} : ∀ {fuel n : Nat}, n < 10 ^ k → 0 < k →
    (natToStrAux fuel n).length ≤ k := by
  induction k with
  | zero => intro _ _ _ h; omega
  | succ k ih =>
    intro fuel n hn _
    cases fuel with
    | zero => simp [natToStrAux]
    | succ fuel =>
      unfold natToStrAux
      split
      · simp
      · rename_i h10
        have hk : 0 < k := by
          rcases Nat.eq_zero_or_pos k with rfl | hk
          · simp at hn; omega
          · exact hk
        have hdiv : n / 10 < 10 ^ k := by
          rw [Nat.div_lt_iff_lt_mul (by norm_num)]
          calc n < 10 ^ (k + 1) := hn
            _ = 10 ^ k * 10 := by ring
        have := @ih fuel (n / 10) hdiv hk
        simp only [List.length_append, List.length_cons, List.length_nil]
        omega

theorem natToStr_length_le {n k : Nat} (hn : n < 10 ^ k) (hk : 0 < k) :
    (natToStr n).length ≤ k := natToStrAux_length_le hn hk

theorem mem_padNum_isDigit {w n : Nat} {c : Char} (h : c ∈ (padNum w n).data) :
    c.isDigit = true := by
  unfold padNum at h
  rcases List.mem_append.mp h with h' | h'
  · rcases List.eq_of_mem_replicate h' with rfl; decide
  · exact mem_natToStr_isDigit h'

theorem padNum_length {w n : Nat} (h : (natToStr n).length ≤ w) :
    (padNum w n).length = w := by
  unfold padNum
  simp only [String.length, String.length_mk, List.length_append, List.length_replicate] at h ⊢
  omega

/-! character-class facts about the pieces of a record line -/

theorem comma_not_mem_natToStr (n : Nat) : ',' ∉ (natToStr n).data := fun h => by
  have := mem_natToStr_isDigit h; simp at this

theorem newline_not_mem_natToStr (n : Nat) : '\n' ∉ (natToStr n).data := fun h => by
  have := mem_natToStr_isDigit h; simp at this

theorem dash_data : "-".data = ['-'] := rfl

theorem mem_fmtTime {t : Tm} {c : Char} (h : c ∈ (fmtTime t).data) :
    c.isDigit = true ∨ c = '-' := by
  simp only [fmtTime, String.data_append, dash_data] at h
  rcases List.mem_append.mp h with h | h
  · rcases List.mem_append.mp h with h | h
    · rcases List.mem_append.mp h with h | h
      · rcases List.mem_append.mp h with h | h
        · rcases List.mem_append.mp h with h | h
          · rcases List.mem_append.mp h with h | h
            · exact Or.inl (mem_padNum_isDigit h)
            · exact Or.inl (mem_padNum_isDigit h)
          · exact Or.inl (mem_padNum_isDigit h)
        · exact Or.inr (List.mem_singleton.mp h)
      · exact Or.inl (mem_padNum_isDigit h)
    · exact Or.inl (mem_padNum_isDigit h)
  · exact Or.inl (mem_padNum_isDigit h)

theorem comma_not_mem_fixtureFilename (t : Tm) : ',' ∉ (fixtureFilename t).data := by
  intro h
  simp only [fixtureFilename, String.data_append] at h
  rcases List.mem_append.mp h with h | h
  · rcases List.mem_append.mp h with h | h
    · simp at h
    · rcases mem_fmtTime h with hd | hd <;> simp at hd
  · simp at h

theorem newline_not_mem_fixtureFilename (t : Tm) : '\n' ∉ (fixtureFilename t).data := by
  intro h
  simp only [fixtureFilename, String.data_append] at h
  rcases List.mem_append.mp h with h | h
  · rcases List.mem_append.mp h with h | h
    · simp at h
    · rcases mem_fmtTime h with hd | hd <;> simp at hd
  · simp at h

theorem comma_not_mem_FILE_HASH : ',' ∉ FILE_HASH.data := by decide

/-! joinPath pieces -/

theorem joinPath_data (d f : String) :
    (joinPath d f).data = d.data ++ '/' :: f.data := by
  simp [joinPath, String.data_append]

theorem comma_not_mem_joinPath {d f : String} (hd : ',' ∉ d.data) (hf : ',' ∉ f.data) :
    ',' ∉ (joinPath d f).data := by
  rw [joinPath_data]
  intro h
  rcases List.mem_append.mp h with h | h
  · exact hd h
  · rcases List.mem_cons.mp h with h | h
    · exact absurd h (by decide)
    · exact hf h

/-! lengths of padded fields -/

theorem padNum_data_length {w n : Nat} (h : (natToStr n).length ≤ w) :
    (padNum w n).data.length = w := by
  show (List.replicate (w - (natToStr n).length) '0' ++ (natToStr n).data).length = w
  have e : (natToStr n).length = (natToStr n).data.length := rfl
  rw [e] at h
  simp only [List.length_append, List.length_replicate]
  omega

theorem natToStr_length_le_four {n : Nat} (h : n ≤ 9999) : (natToStr n).length ≤ 4 :=
  natToStr_length_le (by omega) (by norm_num)

theorem natToStr_length_le_two {n : Nat} (h : n ≤ 99) : (natToStr n).length ≤ 2 :=
  natToStr_length_le (by omega) (by norm_num)

theorem matchesFixturePattern_of {s : String} (A B : List Char)
    (hs : s.data = "MAH11-".data ++ (A ++ '-' :: (B ++ ".pcap".data)))
    (hA : A.length = 8) (hB : B.length = 6)
    (hdA : ∀ c ∈ A, c.isDigit = true) (hdB : ∀ c ∈ B, c.isDigit = true) :
    MatchesFixturePattern s := by
  have h6 : ("MAH11-".data).length = 6 := by decide
  refine ⟨?_, ?_, ?_, ?_, ?_, ?_⟩ <;> rw [hs]
  · simp [List.length_append, hA, hB]
  · rw [← h6, List.take_left]
  · rw [← h6, List.drop_left]
    intro c hc
    rw [← hA, List.take_left] at hc
    exact hdA c hc
  · have e : "MAH11-".data ++ (A ++ '-' :: (B ++ ".pcap".data)) =
        ("MAH11-".data ++ A) ++ '-' :: (B ++ ".pcap".data) := by
      simp [List.append_assoc]
    rw [e]
    have h14 : ("MAH11-".data ++ A).length = 14 := by simp [h6, hA]
    rw [← h14, List.drop_left]
    rfl
  · have e : "MAH11-".data ++ (A ++ '-' :: (B ++ ".pcap".data)) =
        (("MAH11-".data ++ A) ++ ['-']) ++ (B ++ ".pcap".data) := by
      simp [List.append_assoc]
    rw [e]
    have h15 : (("MAH11-".data ++ A) ++ ['-']).length = 15 := by simp [h6, hA]
    rw [← h15, List.drop_left]
    intro c hc
    rw [← hB, List.take_left] at hc
    exact hdB c hc
  · have e : "MAH11-".data ++ (A ++ '-' :: (B ++ ".pcap".data)) =
        ((("MAH11-".data ++ A) ++ ['-']) ++ B) ++ ".pcap".data := by
      simp [List.append_assoc]
    rw [e]
    have h21 : ((("MAH11-".data ++ A) ++ ['-']) ++ B).length = 21 := by simp [h6, hA, hB]
    rw [← h21, List.drop_left]

theorem fixtureFilename_data (t : Tm) :
    (fixtureFilename t).data =
      "MAH11-".data ++
        (((padNum 4 t.year).data ++ (padNum 2 t.mon).data ++ (padNum 2 t.mday).data) ++
          '-' :: (((padNum 2 t.hour).data ++ (padNum 2 t.min).data ++ (padNum 2 t.sec).data) ++
            ".pcap".data)) := by
  simp [fixtureFilename, fmtTime, String.data_append, dash_data, List.append_assoc]

theorem fixtureFilename_matches {t : Tm} (h : t.WF) :
    MatchesFixturePattern (fixtureFilename t) := by
  obtain ⟨hy, hmo, hmd, hh, hmi, hs⟩ := h
  refine matchesFixturePattern_of _ _ (fixtureFilename_data t) ?_ ?_ ?_ ?_
  · rw [List.length_append, List.length_append,
      padNum_data_length (natToStr_length_le_four hy),
      padNum_data_length (natToStr_length_le_two hmo),
      padNum_data_length (natToStr_length_le_two hmd)]
  · rw [List.length_append, List.length_append,
      padNum_data_length (natToStr_length_le_two hh),
      padNum_data_length (natToStr_length_le_two hmi),
      padNum_data_length (natToStr_length_le_two hs)]
  · intro c hc
    rcases List.mem_append.mp hc with hc | hc
    · rcases List.mem_append.mp hc with hc | hc <;> exact mem_padNum_isDigit hc
    · exact mem_padNum_isDigit hc
  · intro c hc
    rcases List.mem_append.mp hc with hc | hc
    · rcases List.mem_append.mp hc with hc | hc <;> exact mem_padNum_isDigit hc
    · exact mem_padNum_isDigit hc

theorem fmtTime_data_length {t : Tm} (h : t.WF) : (fmtTime t).data.length = 15 := by
  obtain ⟨hy, hmo, hmd, hh, hmi, hs⟩ := h
  simp only [fmtTime, String.data_append, dash_data, List.length_append,
    padNum_data_length (natToStr_length_le_four hy),
    padNum_data_length (natToStr_length_le_two hmo),
    padNum_data_length (natToStr_length_le_two hmd),
    padNum_data_length (natToStr_length_le_two hh),
    padNum_data_length (natToStr_length_le_two hmi),
    padNum_data_length (natToStr_length_le_two hs)]
  decide

theorem embeddedStamp_fixtureFilename {t : Tm} (h : t.WF) :
    embeddedStamp (fixtureFilename t) = fmtTime t := by
  unfold embeddedStamp
  have e : (fixtureFilename t).data = "MAH11-".data ++ ((fmtTime t).data ++ ".pcap".data) := by
    simp [fixtureFilename, String.data_append]
  rw [e]
  have h6 : ("MAH11-".data).length = 6 := by decide
  rw [← h6, List.drop_left, ← fmtTime_data_length h, List.take_left]

theorem char_toNat_ofNat {n : Nat} (h : n < 0xd800) : (Char.ofNat n).toNat = n := by
  unfold Char.ofNat
  rw [dif_pos (Or.inl h)]
  unfold Char.ofNatAux Char.toNat
  simp [UInt32.toNat]

theorem pyLower_idem (c : Char) : pyLower (pyLower c) = pyLower c := by
  unfold pyLower
  by_cases h : 65 ≤ c.toNat ∧ c.toNat ≤ 90
  · rw [if_pos h]
    have ht : (Char.ofNat (c.toNat + 32)).toNat = c.toNat + 32 :=
      char_toNat_ofNat (by omega)
    rw [if_neg (by rw [ht]; omega)]
  · rw [if_neg h, if_neg h]

theorem step_of_lower_space {srcDir : String} {io : Io} {ch : Char} {s : GenState}
    (h : pyLower ch = ' ') :
    step srcDir io ch s =
      if io.writeOk then
        appendIf io.appendOk
          { s with files := s.files ++ [(joinPath srcDir (fixtureFilename io.ct), FILE_CONTENT)] }
          (natToStr io.t1 ++ "," ++ joinPath srcDir (fixtureFilename io.ct) ++ "," ++ FILE_HASH ++ "\n")
      else s := by
  simp only [step, h, generate_valid_record]
  cases io.writeOk <;> simp [appendIf]

theorem step_of_lower_one {srcDir : String} {io : Io} {ch : Char} {s : GenState}
    (h : pyLower ch = '1') :
    step srcDir io ch s = appendIf io.appendOk s (generate_error_record srcDir io.t1 io.ct "missing_field") := by
  simp only [step, h, appendIf]
  norm_num
  cases io.appendOk <;> simp

theorem step_of_lower_two {srcDir : String} {io : Io} {ch : Char} {s : GenState}
    (h : pyLower ch = '2') :
    step srcDir io ch s = appendIf io.appendOk s (generate_error_record srcDir io.t1 io.ct "empty_path") := by
  simp only [step, h, appendIf]
  norm_num
  cases io.appendOk <;> simp

theorem step_of_lower_three {srcDir : String} {io : Io} {ch : Char} {s : GenState}
    (h : pyLower ch = '3') :
    step srcDir io ch s = appendIf io.appendOk s (generate_error_record srcDir io.t1 io.ct "extra_row") := by
  simp only [step, h, appendIf]
  norm_num
  cases io.appendOk <;> simp

theorem step_of_lower_four {srcDir : String} {io : Io} {ch : Char} {s : GenState}
    (h : pyLower ch = '4') :
    step srcDir io ch s = appendIf io.appendOk s (generate_error_record srcDir io.t1 io.ct "garbled") := by
  simp only [step, h, appendIf]
  norm_num
  cases io.appendOk <;> simp

theorem step_of_lower_r {srcDir : String} {io : Io} {ch : Char} {s : GenState}
    (h : pyLower ch = 'r') :
    step srcDir io ch s = appendIf io.appendOk s (generate_fail_record io.t1 io.ct io.tmpOk "relative") := by
  simp only [step, h, appendIf]
  norm_num
  cases io.appendOk <;> simp

theorem step_of_lower_o {srcDir : String} {io : Io} {ch : Char} {s : GenState}
    (h : pyLower ch = 'o') :
    step srcDir io ch s = appendIf io.appendOk s (generate_fail_record io.t1 io.ct io.tmpOk "outside") := by
  simp only [step, h, appendIf]
  norm_num
  cases io.appendOk <;> simp

theorem step_of_lower_t {srcDir : String} {io : Io} {ch : Char} {s : GenState}
    (h : pyLower ch = 't') :
    step srcDir io ch s = if io.truncOk then { s with ledger := "" } else s := by
  simp only [step, h]
  norm_num
  cases io.truncOk <;> simp

theorem step_of_lower_other {srcDir : String} {io : Io} {ch : Char} {s : GenState}
    (h : pyLower ch ∉ [' ', '1', '2', '3', '4', 'r', 'o', 't']) :
    step srcDir io ch s = s := by
  simp only [List.mem_cons, List.mem_singleton, not_or] at h
  obtain ⟨h1, h2, h3, h4, h5, h6, h7, h8, -⟩ := h
  simp only [step]
  rw [if_neg h1, if_neg h2, if_neg h3, if_neg h4, if_neg h5, if_neg h6, if_neg h7, if_neg h8]


theorem countNL_append (a b : String) : countNL (a ++ b) = countNL a + countNL b := by
  simp [countNL, String.data_append, List.count_append]

theorem countNL_le_append (a u : String) : countNL a ≤ countNL (a ++ u) := by
  rw [countNL_append]; omega

theorem appendIf_ledger (ok : Bool) (s : GenState) (line : String) :
    (appendIf ok s line).ledger = if ok then s.ledger ++ line else s.ledger := by
  cases ok <;> simp [appendIf]

theorem appendIf_files (ok : Bool) (s : GenState) (line : String) :
    (appendIf ok s line).files = s.files := by
  cases ok <;> simp [appendIf]

theorem countNL_le_appendIf (ok : Bool) (s : GenState) (line : String) :
    countNL s.ledger ≤ countNL (appendIf ok s line).ledger := by
  rw [appendIf_ledger]
  cases ok
  · simp
  · simp only [if_pos]
    exact countNL_le_append _ _

/-- Every non-truncate iteration only ever extends the ledger text. -/
theorem step_ledger_extends {srcDir : String} {io : Io} {ch : Char} {s : GenState}
    (h : pyLower ch ≠ 't') :
    ∃ u, (step srcDir io ch s).ledger = s.ledger ++ u := by
  have ext_of_appendIf : ∀ (ok : Bool) (s' : GenState) (line : String),
      s'.ledger = s.ledger → ∃ u, (appendIf ok s' line).ledger = s.ledger ++ u := by
    intro ok s' line he
    rw [appendIf_ledger, he]
    cases ok
    · exact ⟨"", by simp⟩
    · exact ⟨line, by simp⟩
  by_cases h1 : pyLower ch = ' '
  · rw [step_of_lower_space h1]
    cases hw : io.writeOk
    · exact ⟨"", by simp⟩
    · simp only [if_pos]
      exact ext_of_appendIf _ _ _ rfl
  by_cases h2 : pyLower ch = '1'
  · rw [step_of_lower_one h2]; exact ext_of_appendIf _ _ _ rfl
  by_cases h3 : pyLower ch = '2'
  · rw [step_of_lower_two h3]; exact ext_of_appendIf _ _ _ rfl
  by_cases h4 : pyLower ch = '3'
  · rw [step_of_lower_three h4]; exact ext_of_appendIf _ _ _ rfl
  by_cases h5 : pyLower ch = '4'
  · rw [step_of_lower_four h5]; exact ext_of_appendIf _ _ _ rfl
  by_cases h6 : pyLower ch = 'r'
  · rw [step_of_lower_r h6]; exact ext_of_appendIf _ _ _ rfl
  by_cases h7 : pyLower ch = 'o'
  · rw [step_of_lower_o h7]; exact ext_of_appendIf _ _ _ rfl
  · rw [step_of_lower_other (by simp [h1, h2, h3, h4, h5, h6, h7, h])]
    exact ⟨"", by simp⟩

theorem comma_data : ",".data = [','] := rfl

theorem newline_data : "\n".data = ['\n'] := rfl

/-- Splitting an `a,b,c`-shaped newline-terminated line on commas recovers
the three fields, provided none of them contains a comma. -/
theorem recordFields_three (a b c : String)
    (ha : ',' ∉ a.data) (hb : ',' ∉ b.data) (hc : ',' ∉ c.data) :
    recordFields (a ++ "," ++ b ++ "," ++ c ++ "\n") = [a, b, c] := by
  unfold recordFields
  have e : (a ++ "," ++ b ++ "," ++ c ++ "\n").data
      = (a.data ++ ',' :: (b.data ++ ',' :: c.data)) ++ ['\n'] := by
    simp [String.data_append, comma_data, newline_data, List.append_assoc]
  rw [e, List.dropLast_concat, splitCh_three ha hb hc]
  rfl
end PcapGen

/-! ### The claims, settled -/

open PcapGen PcapRx

/-- C1: for every valid-fixture request that succeeds, the appended ledger
line is `<epoch>,<abs_path>,<digest>` — exactly three comma-separated fields,
the path field equal to the absolute path of the fixture file just written
under the configured source directory, and the digest field equal to
`FILE_HASH`, the SHA-256 hex digest of the fixed payload that is the file's
content. -/
theorem C1_valid_record_line_well_formed
    (srcDir : String) (io : Io) (ch : Char) (s : GenState)
    (hsrc : ',' ∉ srcDir.data) (hch : pyLower ch = ' ')
    (hw : io.writeOk = true) (ha : io.appendOk = true) :
    ∃ line fp,
      step srcDir io ch s =
        { ledger := s.ledger ++ line, files := s.files ++ [(fp, FILE_CONTENT)] } ∧
      line = natToStr io.t1 ++ "," ++ fp ++ "," ++ FILE_HASH ++ "\n" ∧
      recordFields line = [natToStr io.t1, fp, FILE_HASH] ∧
      fp = joinPath srcDir (fixtureFilename io.ct) := by
  refine ⟨_, joinPath srcDir (fixtureFilename io.ct), ?_, rfl, ?_, rfl⟩
  · rw [step_of_lower_space hch, hw]
    simp only [if_pos, appendIf, ha, if_true]
  · exact recordFields_three _ _ _ (comma_not_mem_natToStr _)
      (comma_not_mem_joinPath hsrc (comma_not_mem_fixtureFilename _))
      comma_not_mem_FILE_HASH

/-- Witness for C1 at a concrete configuration, state and clock. -/
theorem C1_valid_record_line_well_formed_witness :
    (',' ∉ ("/data" : String).data) ∧
    (∃ line fp,
      step "/data" ⟨0, tmOfEpochUTC 0, true, true, true, true⟩ ' ' ⟨"", []⟩ =
        { ledger := "" ++ line, files := ([] : List (String × String)) ++ [(fp, FILE_CONTENT)] } ∧
      line = natToStr 0 ++ "," ++ fp ++ "," ++ FILE_HASH ++ "\n" ∧
      recordFields line = [natToStr 0, fp, FILE_HASH] ∧
      fp = joinPath "/data" (fixtureFilename (tmOfEpochUTC 0))) :=
  ⟨by decide,
   C1_valid_record_line_well_formed "/data" ⟨0, tmOfEpochUTC 0, true, true, true, true⟩
     ' ' ⟨"", []⟩ (by decide) (by decide) rfl rfl⟩

/-- C2: when the fixture write fails, `generate_valid_record` returns no
record, and the dispatch loop suppresses the ledger append: the iteration
leaves the state (ledger and files) unchanged. -/
theorem C2_write_failure_suppresses_append
    (srcDir : String) (t : Nat) (ct : Tm) (io : Io) (ch : Char) (s : GenState) :
    generate_valid_record srcDir t ct false = none ∧
    (pyLower ch = ' ' → io.writeOk = false → step srcDir io ch s = s) := by
  refine ⟨rfl, fun hch hw => ?_⟩
  rw [step_of_lower_space hch, hw]
  simp

/-- Witness for C2 at a concrete input. -/
theorem C2_write_failure_suppresses_append_witness :
    generate_valid_record "/data" 0 (tmOfEpochUTC 0) false = none ∧
    step "/data" ⟨0, tmOfEpochUTC 0, false, true, true, true⟩ ' ' ⟨"x\n", []⟩ = ⟨"x\n", []⟩ :=
  ⟨(C2_write_failure_suppresses_append "/data" 0 (tmOfEpochUTC 0)
      ⟨0, tmOfEpochUTC 0, false, true, true, true⟩ ' ' ⟨"x\n", []⟩).1,
   (C2_write_failure_suppresses_append "/data" 0 (tmOfEpochUTC 0)
      ⟨0, tmOfEpochUTC 0, false, true, true, true⟩ ' ' ⟨"x\n", []⟩).2 (by decide) rfl⟩

/-- C3 counterexample: the code samples the clock twice (`int(time.time())`
then `time.localtime()`).  With the two reads straddling a second boundary —
epoch read 0, localtime read of instant 1 (UTC) — the generated filename
embeds `19700101-000001` while the ledger epoch field `0` converts to
`19700101-000000`: the filename and the epoch field disagree, refuting the
claim that they are never inconsistent across a second boundary. -/
theorem C3_clock_sample_counterexample :
    generate_valid_record "/data" 0 (tmOfEpochUTC 1) true =
      some ("0,/data/MAH11-19700101-000001.pcap," ++ FILE_HASH ++ "\n",
        "/data/MAH11-19700101-000001.pcap") ∧
    embeddedStamp "MAH11-19700101-000001.pcap" = "19700101-000001" ∧
    fmtTime (tmOfEpochUTC 0) = "19700101-000000" ∧
    ("19700101-000001" : String) ≠ "19700101-000000" := by
  decide

/-- C3 (amended): the fixture filename always matches
`MAH11-\d{8}-\d{6}\.pcap` (for any realistic broken-down time), and whenever
the two clock reads fall in the same second — i.e. the localtime conversion
is applied to the same sample `t` that becomes the epoch field — the stamp
embedded in the filename equals the epoch field converted to local time. -/
theorem C3_filename_matches_and_stamp_consistent_when_same_sample
    (localtime : Nat → Tm) (srcDir : String) (t : Nat)
    (hwf : (localtime t).WF) :
    ∃ line fp,
      generate_valid_record srcDir t (localtime t) true = some (line, fp) ∧
      fp = joinPath srcDir (fixtureFilename (localtime t)) ∧
      MatchesFixturePattern (fixtureFilename (localtime t)) ∧
      embeddedStamp (fixtureFilename (localtime t)) = fmtTime (localtime t) ∧
      line = natToStr t ++ "," ++ fp ++ "," ++ FILE_HASH ++ "\n" :=
  ⟨_, _, rfl, rfl, fixtureFilename_matches hwf, embeddedStamp_fixtureFilename hwf, rfl⟩

/-- Witness for the amended C3 with the UTC conversion at epoch 0. -/
theorem C3_filename_matches_and_stamp_consistent_witness :
    (tmOfEpochUTC 0).WF ∧
    ∃ line fp,
      generate_valid_record "/data" 0 (tmOfEpochUTC 0) true = some (line, fp) ∧
      fp = joinPath "/data" (fixtureFilename (tmOfEpochUTC 0)) ∧
      MatchesFixturePattern (fixtureFilename (tmOfEpochUTC 0)) ∧
      embeddedStamp (fixtureFilename (tmOfEpochUTC 0)) = fmtTime (tmOfEpochUTC 0) ∧
      line = natToStr 0 ++ "," ++ fp ++ "," ++ FILE_HASH ++ "\n" :=
  ⟨by decide,
   C3_filename_matches_and_stamp_consistent_when_same_sample tmOfEpochUTC "/data" 0 (by decide)⟩

/-- C4: the ledger length in lines never decreases except via the explicit
truncate selector; truncate performs no append (it empties the ledger on
success and leaves it alone on failure, touching no files); every other
recognized selector, on success, performs exactly one append consisting of
the text its formatter produced. -/
theorem C4_append_monotone_truncate_only_reset
    (srcDir : String) (io : Io) (ch : Char) (s : GenState) :
    (pyLower ch ≠ 't' → countNL s.ledger ≤ countNL (step srcDir io ch s).ledger) ∧
    (pyLower ch = 't' →
      (step srcDir io ch s).ledger = (if io.truncOk then "" else s.ledger) ∧
      (step srcDir io ch s).files = s.files) ∧
    (io.appendOk = true →
      (pyLower ch = ' ' → io.writeOk = true →
        (step srcDir io ch s).ledger = s.ledger ++
          (natToStr io.t1 ++ "," ++ joinPath srcDir (fixtureFilename io.ct) ++ "," ++
            FILE_HASH ++ "\n")) ∧
      (pyLower ch = '1' →
        (step srcDir io ch s).ledger = s.ledger ++ generate_error_record srcDir io.t1 io.ct "missing_field") ∧
      (pyLower ch = '2' →
        (step srcDir io ch s).ledger = s.ledger ++ generate_error_record srcDir io.t1 io.ct "empty_path") ∧
      (pyLower ch = '3' →
        (step srcDir io ch s).ledger = s.ledger ++ generate_error_record srcDir io.t1 io.ct "extra_row") ∧
      (pyLower ch = '4' →
        (step srcDir io ch s).ledger = s.ledger ++ generate_error_record srcDir io.t1 io.ct "garbled") ∧
      (pyLower ch = 'r' →
        (step srcDir io ch s).ledger = s.ledger ++ generate_fail_record io.t1 io.ct io.tmpOk "relative") ∧
      (pyLower ch = 'o' →
        (step srcDir io ch s).ledger = s.ledger ++ generate_fail_record io.t1 io.ct io.tmpOk "outside")) := by
  refine ⟨?_, ?_, ?_⟩
  · intro ht
    obtain ⟨u, hu⟩ := @step_ledger_extends srcDir io ch s ht
    rw [hu]
    exact countNL_le_append _ _
  · intro ht
    rw [step_of_lower_t ht]
    cases io.truncOk <;> simp
  · intro ha
    refine ⟨?_, ?_, ?_, ?_, ?_, ?_, ?_⟩
    · intro hch hw
      rw [step_of_lower_space hch, hw]
      simp only [if_pos, appendIf_ledger, ha, if_true]
    · intro hch; rw [step_of_lower_one hch, appendIf_ledger, ha]; simp
    · intro hch; rw [step_of_lower_two hch, appendIf_ledger, ha]; simp
    · intro hch; rw [step_of_lower_three hch, appendIf_ledger, ha]; simp
    · intro hch; rw [step_of_lower_four hch, appendIf_ledger, ha]; simp
    · intro hch; rw [step_of_lower_r hch, appendIf_ledger, ha]; simp
    · intro hch; rw [step_of_lower_o hch, appendIf_ledger, ha]; simp

/-- Witness for C4: a non-truncate selector never shrinks the ledger, and the
`garbled` selector appends exactly its formatter's text. -/
theorem C4_append_monotone_truncate_only_reset_witness :
    (pyLower '4' ≠ 't') ∧
    countNL ("a\n") ≤ countNL (step "/data" ⟨0, tmOfEpochUTC 0, true, true, true, true⟩ '4' ⟨"a\n", []⟩).ledger ∧
    (step "/data" ⟨0, tmOfEpochUTC 0, true, true, true, true⟩ '4' ⟨"a\n", []⟩).ledger =
      "a\n" ++ generate_error_record "/data" 0 (tmOfEpochUTC 0) "garbled" :=
  ⟨by decide,
   (C4_append_monotone_truncate_only_reset "/data" ⟨0, tmOfEpochUTC 0, true, true, true, true⟩
      '4' ⟨"a\n", []⟩).1 (by decide),
   ((C4_append_monotone_truncate_only_reset "/data" ⟨0, tmOfEpochUTC 0, true, true, true, true⟩
      '4' ⟨"a\n", []⟩).2.2 rfl).2.2.2.2.1 (by decide)⟩

/-- C5 counterexample: the first line of the garbled block is
`garbled data, not, even close`, which does contain commas and in fact splits
into exactly three comma-delimited fields — the same field count as the
schema — refuting "no comma-delimited structure resembling the schema at
all". -/
theorem C5_garbled_first_line_counterexample :
    blockLines (generate_error_record "/data" 0 (tmOfEpochUTC 0) "garbled") =
      ["garbled data, not, even close", "to csv format!"] ∧
    ',' ∈ ("garbled data, not, even close" : String).data ∧
    (splitCh ',' ("garbled data, not, even close" : String).data).length = 3 := by
  decide

/-- C5 (amended): for every garbled request the appended block is exactly the
two physical lines `garbled data, not, even close` and `to csv format!`, and
no line of the block matches the valid ledger grammar
`<integer epoch>,<path>,<64-hex>` (the first line does split into three
comma-separated fields, but none with valid field content). -/
theorem C5_garbled_block_never_matches_grammar
    (srcDir : String) (t : Nat) (ct : Tm) :
    blockLines (generate_error_record srcDir t ct "garbled") =
      ["garbled data, not, even close", "to csv format!"] ∧
    ∀ l ∈ blockLines (generate_error_record srcDir t ct "garbled"),
      matchesValidGrammar l = false := by
  have e : generate_error_record srcDir t ct "garbled" =
      "garbled data, not, even close\nto csv format!\n" := by
    unfold generate_error_record
    rw [if_neg (by decide), if_neg (by decide), if_neg (by decide), if_pos rfl]
  rw [e]
  exact ⟨by decide, by decide⟩

/-- Witness for the amended C5. -/
theorem C5_garbled_block_never_matches_grammar_witness :
    ("garbled data, not, even close" : String) ∈
      blockLines (generate_error_record "/data" 7 (tmOfEpochUTC 0) "garbled") ∧
    matchesValidGrammar "garbled data, not, even close" = false :=
  ⟨by decide,
   (C5_garbled_block_never_matches_grammar "/data" 7 (tmOfEpochUTC 0)).2 _ (by decide)⟩

/-- C6 counterexample: the outside path is hard-coded under `/tmp`; if the
configured source directory is itself `/tmp`, the produced path *does* have
the source directory as a lexical prefix. -/
theorem C6_outside_path_counterexample :
    recordFields (generate_fail_record 0 (tmOfEpochUTC 0) true "outside") =
      ["0", "/tmp/MAH11-19700101-000000.pcap", FILE_HASH] ∧
    ("/tmp" : String).data.isPrefixOf
      ("/tmp/MAH11-19700101-000000.pcap" : String).data = true := by
  decide

/-- C6 (amended): for every outside request with `/tmp` usable, the record is
the well-formed line whose path field is the absolute path
`/tmp/<filename>`; it lacks the configured source directory as a lexical
prefix whenever that directory is not itself a lexical prefix of the `/tmp`
path (true of any source directory other than `/`, `/t`, `/tm`, `/tmp` or a
`/tmp/…` prefix of the path); and no backing file is created. -/
theorem C6_outside_path_escapes_source_dir
    (srcDir : String) (t : Nat) (ct : Tm) (io : Io) (ch : Char) (s : GenState)
    (hpre : srcDir.data.isPrefixOf (joinPath "/tmp" (fixtureFilename ct)).data = false) :
    recordFields (generate_fail_record t ct true "outside") =
      [natToStr t, joinPath "/tmp" (fixtureFilename ct), FILE_HASH] ∧
    (joinPath "/tmp" (fixtureFilename ct)).data.head? = some '/' ∧
    srcDir.data.isPrefixOf (joinPath "/tmp" (fixtureFilename ct)).data = false ∧
    (pyLower ch = 'o' → (step srcDir io ch s).files = s.files) := by
  refine ⟨?_, ?_, hpre, fun hch => ?_⟩
  · have e : generate_fail_record t ct true "outside" =
        natToStr t ++ "," ++ joinPath "/tmp" (fixtureFilename ct) ++ "," ++ FILE_HASH ++ "\n" := by
      simp only [generate_fail_record]
      rw [if_neg (by decide)]
      simp
    rw [e]
    exact recordFields_three _ _ _ (comma_not_mem_natToStr _)
      (comma_not_mem_joinPath (by decide) (comma_not_mem_fixtureFilename _))
      comma_not_mem_FILE_HASH
  · rw [joinPath_data]
    rfl
  · rw [step_of_lower_o hch, appendIf_files]

/-- Witness for the amended C6 with source directory `/data`. -/
theorem C6_outside_path_escapes_source_dir_witness :
    ("/data" : String).data.isPrefixOf
      (joinPath "/tmp" (fixtureFilename (tmOfEpochUTC 0))).data = false ∧
    (step "/data" ⟨0, tmOfEpochUTC 0, true, true, true, true⟩ 'o' ⟨"", []⟩).files = [] :=
  ⟨by decide,
   (C6_outside_path_escapes_source_dir "/data" 0 (tmOfEpochUTC 0)
      ⟨0, tmOfEpochUTC 0, true, true, true, true⟩ 'o' ⟨"", []⟩ (by decide)).2.2.2 (by decide)⟩

/-- C7: the mock upload endpoint returns status 200 and body `OK` for every
request, independently of its headers and body; it increments the
process-wide counter by one per request; and exactly the requests whose
incremented counter value is a multiple of 20 (the 20th, 40th, … since
process start) are held for the fixed 6-second delay. -/
theorem C7_upload_fixed_response_every_20th_delayed
    (n : Nat) (r r' : UploadRequest) :
    (upload n r).2.status = 200 ∧
    (upload n r).2.body = "OK" ∧
    (upload n r).2 = (upload n r').2 ∧
    (upload n r).1 = n + 1 ∧
    ((upload n r).2.delaySeconds = 6 ↔ (n + 1) % 20 = 0) ∧
    ((upload n r).2.delaySeconds = 0 ↔ ¬(n + 1) % 20 = 0) := by
  unfold upload
  refine ⟨rfl, rfl, rfl, rfl, ?_, ?_⟩ <;> by_cases h : (n + 1) % 20 = 0 <;> simp [h]

/-- C8: unknown selector values passed to the two error formatters do not
fail: an unknown `error_type` falls back to the valid-looking three-field
line, and an unknown `fail_type` falls back to the relative-path line. -/
theorem C8_unknown_selector_falls_back
    (srcDir : String) (t : Nat) (ct : Tm) (tmpOk : Bool) (et ft : String)
    (het : et ∉ ["missing_field", "empty_path", "extra_row", "garbled"])
    (hft : ft ∉ ["relative", "outside"]) :
    generate_error_record srcDir t ct et =
      natToStr t ++ "," ++ joinPath srcDir (fixtureFilename ct) ++ "," ++ FILE_HASH ++ "\n" ∧
    generate_fail_record t ct tmpOk ft =
      natToStr t ++ "," ++ fixtureFilename ct ++ "," ++ FILE_HASH ++ "\n" := by
  simp only [List.mem_cons, List.mem_singleton, not_or] at het hft
  obtain ⟨h1, h2, h3, h4, -⟩ := het
  obtain ⟨h5, h6, -⟩ := hft
  constructor
  · unfold generate_error_record
    rw [if_neg h1, if_neg h2, if_neg h3, if_neg h4]
  · simp only [generate_fail_record]
    rw [if_neg h5, if_neg h6]

/-- Witness for C8 at the unknown selector values `bogus` and `junk`. -/
theorem C8_unknown_selector_falls_back_witness :
    generate_error_record "/data" 0 (tmOfEpochUTC 0) "bogus" =
      natToStr 0 ++ "," ++ joinPath "/data" (fixtureFilename (tmOfEpochUTC 0)) ++ "," ++
        FILE_HASH ++ "\n" ∧
    generate_fail_record 0 (tmOfEpochUTC 0) true "junk" =
      natToStr 0 ++ "," ++ fixtureFilename (tmOfEpochUTC 0) ++ "," ++ FILE_HASH ++ "\n" :=
  C8_unknown_selector_falls_back "/data" 0 (tmOfEpochUTC 0) true "bogus" "junk"
    (by decide) (by decide)

/-- C9: selector dispatch is invariant under letter case: the loop lowercases
the control character before matching, so any input character performs the
same action as its lowercase form. -/
theorem C9_dispatch_case_insensitive
    (srcDir : String) (io : Io) (ch : Char) (s : GenState) :
    step srcDir io ch s = step srcDir io (pyLower ch) s := by
  simp only [step, pyLower_idem]

/-- C10: every text block any formatter produces — the valid line, all four
malformed-CSV kinds, both invalid-path kinds, and both defensive fallbacks —
ends with a newline character, so appended blocks are newline-terminated and
consecutive records never share a physical ledger line. -/
theorem C10_formatter_outputs_newline_terminated
    (srcDir : String) (t : Nat) (ct : Tm) (et ft : String) (tmpOk : Bool) :
    (∃ u fp, generate_valid_record srcDir t ct true = some (u ++ "\n", fp)) ∧
    (∃ u, generate_error_record srcDir t ct et = u ++ "\n") ∧
    (∃ u, generate_fail_record t ct tmpOk ft = u ++ "\n") := by
  refine ⟨⟨_, _, rfl⟩, ?_, ?_⟩
  · unfold generate_error_record
    by_cases h1 : et = "missing_field"
    · rw [if_pos h1]; exact ⟨_, rfl⟩
    rw [if_neg h1]
    by_cases h2 : et = "empty_path"
    · rw [if_pos h2]; exact ⟨_, rfl⟩
    rw [if_neg h2]
    by_cases h3 : et = "extra_row"
    · rw [if_pos h3]; exact ⟨_, rfl⟩
    rw [if_neg h3]
    by_cases h4 : et = "garbled"
    · rw [if_pos h4]
      exact ⟨"garbled data, not, even close\nto csv format!", by decide⟩
    · rw [if_neg h4]; exact ⟨_, rfl⟩
  · unfold generate_fail_record
    exact ⟨_, rfl⟩
